import Mathlib

/-!
# Verification of the MoltBot/ClawdBot honeypot core

Shallow embedding of the honeypot's protocol-emulation and capture core:

* the Attack Record Store (`src/storage/attack-store.js`, full variant),
* the WebSocket protocol emulator (`src/honeypot/websocket-server.js`,
  the richer variant),
* the mDNS/UDP query responder (`src/honeypot/mdns-server.js`).

The JavaScript source is translated method by method.  Runtime-supplied
values (`Date.now()`, `process.uptime()`, `crypto.randomUUID()`, network
interface addresses) are threaded through explicit environment records.
Disk writes are modelled by explicit log/snapshot fields together with a
failure environment that mirrors the `try { ... } catch` blocks around
every write.  `console.log` calls are elided.
-/

namespace Honeypot

/-! ## JavaScript string and JSON primitives -/

/-- JS `String.prototype.includes` on character lists: `hay.includes(needle)`. -/
def hasSub : List Char → List Char → Bool
  | hay, needle =>
    if needle.isPrefixOf hay then true
    else
      match hay with
      | [] => false
      | _ :: t => hasSub t needle

/-- JS `hay.includes(needle)` on strings. -/
def strIncludes (hay needle : String) : Bool :=
  hasSub hay.toList needle.toList

/-- JS `String.prototype.toLowerCase` (character-wise lowercasing,
extensionally `String.toLower`, defined over the character list so that
concrete inputs evaluate). -/
def jsToLower (s : String) : String :=
  ⟨s.data.map Char.toLower⟩

/-- JS `s.slice(0, n)`: the first `n` characters (defined over the
character list so that concrete inputs evaluate). -/
def jsSlice (s : String) (n : Nat) : String :=
  ⟨s.data.take n⟩

/-- JSON values, as produced by `JSON.parse` and consumed by the handlers.
Numbers are modelled as integers (no claim under verification inspects a
fractional numeric value); objects are field lists (first binding wins on
lookup, matching a parse that deduplicates keys). -/
inductive Js where
  | str : String → Js
  | num : Int → Js
  | bool : Bool → Js
  | null : Js
  | arr : List Js → Js
  | obj : List (String × Js) → Js

/-- Property access `v.k` (undefined, i.e. `none`, on non-objects and
missing keys). -/
def jsField : Js → String → Option Js
  | .obj fs, k => fs.lookup k
  | _, _ => none

/-- JS truthiness: `"" , 0, false, null` are falsy, every array/object is
truthy. -/
def jsTruthy : Js → Bool
  | .str s => s ≠ ""
  | .num n => n ≠ 0
  | .bool b => b
  | .null => false
  | .arr _ => true
  | .obj _ => true

/-- JS `a || b` where `a` may be undefined (`none`). -/
def jsOr (a : Option Js) (b : Js) : Js :=
  match a with
  | some v => if jsTruthy v then v else b
  | none => b

/-! ## Attack Record Store (`src/storage/attack-store.js`)

Embeds the full variant of the store: `recordHttpRequest`,
`recordWsConnection`, `recordWsMessage`, `recordMdnsQuery`, the private
classification helpers, the bounded in-memory window, and the query
methods.  Record `id` and `timestamp` fields are generated from
`Date.now()`/`Math.random()` in the source and carry no information used
by any claim; they are elided from the record model. -/

/-- Argument object of `recordHttpRequest`.  The `body` field stands for
the serialized form `JSON.stringify(data.body || '')` of the parsed
request body (serialization is injective, so equal bodies give equal
strings). -/
structure HttpData where
  ip : String
  method : String
  path : Option String
  headers : List (String × String)
  body : String
  userAgent : Option String

/-- Argument object of `recordWsConnection`. -/
structure WsConnData where
  ip : String
  headers : List (String × String)

/-- Argument object of `recordWsMessage`; `message` is the parsed JSON
value (`none` models a caller passing no `message` field). -/
structure WsMsgData where
  ip : String
  clientId : String
  message : Option Js

/-- Argument object of `recordMdnsQuery`. -/
structure MdnsData where
  ip : String
  port : Nat
  queryName : List Nat
  queryType : Nat

/-- Embeds `AttackStore._categorizeAttack`: deterministic path/body
classification.  `path` is `data.path?.toLowerCase() || ''`; `body` is the
lowercased serialized request body. -/
def categorizeAttack (data : HttpData) : String :=
  let path := (data.path.map jsToLower).getD ""
  let body := jsToLower data.body
  if strIncludes path "/tools/invoke" then "tool_invoke"
  else if strIncludes path "/v1/chat/completions" then
    if strIncludes body "ignore" || strIncludes body "system" ||
        strIncludes body "jailbreak" then "prompt_injection"
    else "chat_completion"
  else if strIncludes path "/v1/responses" then "openresponses"
  else if strIncludes path "/v1/models" then "reconnaissance"
  else if path = "/" then "ui_access"
  else if strIncludes path "/health" then "health_check"
  else "other"

/-- Embeds `message.method?.toLowerCase() || ''`.  A present `method` field whose
value is neither a string nor `null` makes the source throw
`TypeError: toLowerCase is not a function`; that outcome is `none`. -/
def jsMethodLower (m : Js) : Option String :=
  match m with
  | .obj fs =>
    match fs.lookup "method" with
    | none => some ""
    | some .null => some ""
    | some (.str s) => some (jsToLower s)
    | some _ => none
  | _ => some ""

/-- Embeds `AttackStore._categorizeWsMessage`.  `none` models the `TypeError`
raised on a truthy message whose `method` field is a non-string. -/
def categorizeWsMessage (message : Option Js) : Option String :=
  match message with
  | none => some "malformed"
  | some v =>
    if ¬ jsTruthy v then some "malformed"
    else
      (jsMethodLower v).map fun method =>
        if method = "connect" then "ws_auth"
        else if method = "send" then "ws_send"
        else if method = "agent" then "ws_agent"
        else if method = "health" then "ws_health"
        else "ws_other"

/-- Embeds `AttackStore._getDnsTypeName`: fixed lookup table with `TYPE<n>`
fallback. -/
def getDnsTypeName (qtype : Nat) : String :=
  if qtype = 1 then "A"
  else if qtype = 12 then "PTR"
  else if qtype = 16 then "TXT"
  else if qtype = 28 then "AAAA"
  else if qtype = 33 then "SRV"
  else if qtype = 47 then "NSEC"
  else if qtype = 255 then "ANY"
  else "TYPE" ++ toString qtype

/-- Kind-specific payload of an attack record. -/
inductive RecordPayload where
  | http (method : String) (path : Option String)
      (headers : List (String × String)) (body : String)
      (userAgent : Option String)
  | wsConnection (headers : List (String × String))
  | wsMessage (clientId : String) (message : Option Js) (method : Option Js)
  | mdnsQuery (port : Nat) (queryName : List Nat) (queryType : Nat)
      (queryTypeName : String)

/-- One appended attack record (the source's per-record object, minus the
random `id` and wall-clock `timestamp`). -/
structure AttackRecord where
  type : String
  ip : String
  payload : RecordPayload
  category : String

/-- Embeds `this.stats`: the aggregate counters.  Object maps with `|| 0` default
reads are modelled as total functions into `Nat`; the JS `Set` of IPs is a
`Finset`.  `totalMdnsQueries` starts absent in the source and is read as
`|| 0`, so it is modelled as a `Nat` starting at `0`. -/
structure Stats where
  totalHttpRequests : Nat
  totalWsConnections : Nat
  totalWsMessages : Nat
  totalMdnsQueries : Nat
  uniqueIps : Finset String
  attacksByType : String → Nat
  attacksByEndpoint : Option String → Nat
  startTime : Nat

def initStats (t : Nat) : Stats :=
  { totalHttpRequests := 0, totalWsConnections := 0, totalWsMessages := 0
    totalMdnsQueries := 0, uniqueIps := ∅
    attacksByType := fun _ => 0, attacksByEndpoint := fun _ => 0
    startTime := t }

/-- The store: in-memory window plus the on-disk artifacts (the per-day
jsonl log as a list of appended records, and the last written stats
snapshot). -/
structure AttackStore where
  attacks : List AttackRecord
  stats : Stats
  maxInMemory : Nat
  log : List AttackRecord
  statsFile : Option Stats

def initStore (maxInMemory : Nat) : AttackStore :=
  { attacks := [], stats := initStats 0, maxInMemory := maxInMemory
    log := [], statsFile := none }

/-- Disk-failure environment: which of the two `try { write } catch`
blocks throws during one record operation. -/
structure DiskEnv where
  appendFail : Bool
  statsFail : Bool

def okDisk : DiskEnv := ⟨false, false⟩

/-- Embeds `AttackStore._appendToLog`: one line appended, failure swallowed. -/
def appendToLog (e : DiskEnv) (log : List AttackRecord) (a : AttackRecord) :
    List AttackRecord :=
  if e.appendFail then log else log ++ [a]

/-- Embeds `AttackStore._saveStats`: full rewrite of the snapshot file, failure
swallowed. -/
def saveStats (e : DiskEnv) (cur : Stats) (old : Option Stats) : Option Stats :=
  if e.statsFail then old else some cur

/-- JS `arr.slice(-m)`.  Note the quirk the source inherits: `-0 === 0`,
so `slice(-0)` is `slice(0)` and returns the whole array. -/
def jsSliceLast (m : Nat) (l : List AttackRecord) : List AttackRecord :=
  if m = 0 then l else l.drop (l.length - m)

/-- Embeds `AttackStore._addAttack`: push, append to the daily log, trim the
window to the last `maxInMemory` entries when exceeded. -/
def addAttack (e : DiskEnv) (s : AttackStore) (a : AttackRecord) : AttackStore :=
  let attacks := s.attacks ++ [a]
  let log := appendToLog e s.log a
  let attacks :=
    if attacks.length > s.maxInMemory then jsSliceLast s.maxInMemory attacks
    else attacks
  { s with attacks := attacks, log := log }

/-- Bump a counter map at one key (`obj[k] = (obj[k] || 0) + 1`). -/
def bump (f : String → Nat) (k : String) : String → Nat :=
  fun x => if x = k then f x + 1 else f x

/-- Embeds `AttackStore._incrementEndpointStat`. -/
def bumpEndpoint (f : Option String → Nat) (k : Option String) :
    Option String → Nat :=
  fun x => if x = k then f x + 1 else f x

/-- The record built by `recordHttpRequest`. -/
def mkHttpRecord (d : HttpData) : AttackRecord :=
  { type := "http", ip := d.ip
    payload := .http d.method d.path d.headers d.body d.userAgent
    category := categorizeAttack d }

/-- Embeds `AttackStore.recordHttpRequest`. -/
def recordHttpRequest (e : DiskEnv) (s : AttackStore) (d : HttpData) :
    AttackStore × AttackRecord :=
  let attack := mkHttpRecord d
  let s := addAttack e s attack
  let stats := s.stats
  let stats :=
    { stats with
      totalHttpRequests := stats.totalHttpRequests + 1
      uniqueIps := insert d.ip stats.uniqueIps
      attacksByEndpoint := bumpEndpoint stats.attacksByEndpoint d.path
      attacksByType := bump stats.attacksByType attack.category }
  ({ s with stats := stats, statsFile := saveStats e stats s.statsFile }, attack)

/-- The record built by `recordWsConnection`. -/
def mkWsConnRecord (d : WsConnData) : AttackRecord :=
  { type := "ws_connection", ip := d.ip
    payload := .wsConnection d.headers, category := "ws_connect" }

/-- Embeds `AttackStore.recordWsConnection`. -/
def recordWsConnection (e : DiskEnv) (s : AttackStore) (d : WsConnData) :
    AttackStore × AttackRecord :=
  let attack := mkWsConnRecord d
  let s := addAttack e s attack
  let stats := s.stats
  let stats :=
    { stats with
      totalWsConnections := stats.totalWsConnections + 1
      uniqueIps := insert d.ip stats.uniqueIps
      attacksByType := bump stats.attacksByType "ws_connect" }
  ({ s with stats := stats, statsFile := saveStats e stats s.statsFile }, attack)

/-- The record built by `recordWsMessage` once its category is known. -/
def mkWsMsgRecord (d : WsMsgData) (cat : String) : AttackRecord :=
  { type := "ws_message", ip := d.ip
    payload := .wsMessage d.clientId d.message (d.message.bind (jsField · "method"))
    category := cat }

/-- Embeds `AttackStore.recordWsMessage`.  Result `none` models the `TypeError`
propagating out of `_categorizeWsMessage` before any state change (the
attack object literal is evaluated before `_addAttack` runs). -/
def recordWsMessage (e : DiskEnv) (s : AttackStore) (d : WsMsgData) :
    Option (AttackStore × AttackRecord) :=
  (categorizeWsMessage d.message).map fun cat =>
    let attack := mkWsMsgRecord d cat
    let s := addAttack e s attack
    let stats := s.stats
    let stats :=
      { stats with
        totalWsMessages := stats.totalWsMessages + 1
        attacksByType := bump stats.attacksByType attack.category }
    ({ s with stats := stats, statsFile := saveStats e stats s.statsFile }, attack)

/-- The record built by `recordMdnsQuery`. -/
def mkMdnsRecord (d : MdnsData) : AttackRecord :=
  { type := "mdns_query", ip := d.ip
    payload := .mdnsQuery d.port d.queryName d.queryType (getDnsTypeName d.queryType)
    category := "mdns_discovery" }

/-- Embeds `AttackStore.recordMdnsQuery`. -/
def recordMdnsQuery (e : DiskEnv) (s : AttackStore) (d : MdnsData) :
    AttackStore × AttackRecord :=
  let attack := mkMdnsRecord d
  let s := addAttack e s attack
  let stats := s.stats
  let stats :=
    { stats with
      totalMdnsQueries := stats.totalMdnsQueries + 1
      uniqueIps := insert d.ip stats.uniqueIps
      attacksByType := bump stats.attacksByType "mdns_discovery" }
  ({ s with stats := stats, statsFile := saveStats e stats s.statsFile }, attack)

/-- Embeds `AttackStore.getRecentAttacks(limit, offset)`:
`this.attacks.slice().reverse().slice(offset, offset + limit)`. -/
def getRecentAttacks (s : AttackStore) (limit offset : Nat) : List AttackRecord :=
  (s.attacks.reverse.drop offset).take limit

/-- Snapshot returned by `AttackStore.getStats()`; the unique-IP set is
rendered as a count. -/
structure StatsView where
  totalHttpRequests : Nat
  totalWsConnections : Nat
  totalWsMessages : Nat
  totalMdnsQueries : Nat
  uniqueIps : Nat
  attacksByType : String → Nat
  attacksByEndpoint : Option String → Nat
  uptimeMs : Nat
  attacksInMemory : Nat

/-- Embeds `AttackStore.getStats()` (`now` is the `Date.now()` sample used for
`uptimeMs`). -/
def getStats (s : AttackStore) (now : Nat) : StatsView :=
  { totalHttpRequests := s.stats.totalHttpRequests
    totalWsConnections := s.stats.totalWsConnections
    totalWsMessages := s.stats.totalWsMessages
    totalMdnsQueries := s.stats.totalMdnsQueries
    uniqueIps := s.stats.uniqueIps.card
    attacksByType := s.stats.attacksByType
    attacksByEndpoint := s.stats.attacksByEndpoint
    uptimeMs := now - s.stats.startTime
    attacksInMemory := s.attacks.length }

/-! ### Sequences of record operations -/

/-- One external call into the store. -/
inductive Op where
  | http (d : HttpData)
  | wsConn (d : WsConnData)
  | wsMsg (d : WsMsgData)
  | mdns (d : MdnsData)

/-- Run one call.  A `recordWsMessage` call that throws leaves the store
unchanged (the exception escapes to the caller before any mutation). -/
def step (s : AttackStore) (p : DiskEnv × Op) : AttackStore :=
  match p.2 with
  | .http d => (recordHttpRequest p.1 s d).1
  | .wsConn d => (recordWsConnection p.1 s d).1
  | .wsMsg d =>
    match recordWsMessage p.1 s d with
    | some r => r.1
    | none => s
  | .mdns d => (recordMdnsQuery p.1 s d).1

/-- Run a sequence of calls. -/
def run (s : AttackStore) (l : List (DiskEnv × Op)) : AttackStore :=
  l.foldl step s

/-- The category of the record an operation appends (`none` when the call
throws and appends nothing). -/
def opCategory : Op → Option String
  | .http d => some (categorizeAttack d)
  | .wsConn _ => some "ws_connect"
  | .wsMsg d => categorizeWsMessage d.message
  | .mdns _ => some "mdns_discovery"

/-- The source IP an operation adds to the unique-IP set (`recordWsMessage`
never adds one). -/
def opIp : Op → Option String
  | .http d => some d.ip
  | .wsConn d => some d.ip
  | .wsMsg _ => none
  | .mdns d => some d.ip

/-- The record an operation appends, if any. -/
def opRecord : Op → Option AttackRecord
  | .http d => some (mkHttpRecord d)
  | .wsConn d => some (mkWsConnRecord d)
  | .wsMsg d => (categorizeWsMessage d.message).map (mkWsMsgRecord d)
  | .mdns d => some (mkMdnsRecord d)

/-- The records appended by a sequence of calls, in order. -/
def appendedRecs (ops : List Op) : List AttackRecord :=
  ops.filterMap opRecord

/-! ## WebSocket protocol emulator (`src/honeypot/websocket-server.js`)

Embeds the richer variant of the gateway protocol: the per-message
dispatch (`handleRequest`), the `connect` handshake (`handleConnect`),
the response envelope (`sendResponse`), and the `ws.on('message')`
handler with its parse-error fallback. -/

/-- Identity/configuration fields read by the handlers
(`src/config/index.js`). -/
structure Config where
  serviceName : String
  displayName : String
  mdnsServiceType : String
  mdnsHostname : String
  honeypotPort : Nat
  version : String
  protocol : Nat

/-- The `moltbot` identity with default environment. -/
def moltbotConfig : Config :=
  { serviceName := "moltbot", displayName := "MoltBot"
    mdnsServiceType := "moltbot-gw", mdnsHostname := "workstation"
    honeypotPort := 18789, version := "2026.1.24", protocol := 3 }

/-- Runtime values sampled during one handler invocation:
`process.uptime()` (seconds, fractional part elided), `Date.now()`, one
fresh `crypto.randomUUID()` (each handler body calls it at most once),
and `Date#toISOString` as an environment-supplied formatter. -/
structure WsEnv where
  uptime : Nat
  now : Nat
  uuid : String
  iso : Nat → String

/-- The `res` envelope: `{type:'res', id, ok}` plus `payload` exactly when
`ok` and `error` exactly when `!ok` (an absent `id` field in the request
is echoed as an absent field). -/
structure WsRes where
  id : Option Js
  ok : Bool
  payload : Option Js
  error : Option Js

/-- Embeds `sendResponse(ws, id, ok, payload, error)` (the live-socket guard is
I/O and outside the pure frame computation). -/
def sendResponse (id : Option Js) (ok : Bool) (payload : Option Js)
    (error : Option Js := none) : WsRes :=
  { id := id, ok := ok
    payload := if ok then payload else none
    error := if ok then none else error }

/-- Everything one inbound request produces: immediate `res` frames and
`setTimeout`-scheduled push events (delay in ms, event name, payload). -/
structure HandlerOut where
  responses : List WsRes
  events : List (Nat × String × Js)

def mkOut (r : WsRes) : HandlerOut := { responses := [r], events := [] }

/-- String coercion used by JS template literals, for the
`UNKNOWN_METHOD` error message (array elements are joined with commas;
the recursion into elements is approximated since no claim inspects this
string). -/
def jsTmpl : Js → String
  | .str s => s
  | .num n => toString n
  | .bool b => if b then "true" else "false"
  | .null => "null"
  | .arr _ => "[array]"
  | .obj _ => "[object Object]"

/-- The `features.methods` list advertised by the `connect` handshake. -/
def supportedMethods : List String :=
  ["health", "status", "sessions.list", "sessions.preview",
   "sessions.delete", "sessions.reset", "sessions.compact", "agent",
   "agent.identity.get", "agent.wait", "agents.list", "chat.send",
   "chat.history", "chat.abort", "config.get", "config.set",
   "config.schema", "config.patch", "node.list", "node.describe",
   "node.pair.request", "node.pair.list", "node.pair.approve",
   "models.list", "usage.status"]

/-- The `features.events` list advertised by the `connect` handshake. -/
def supportedEvents : List String :=
  ["connect.challenge", "agent.started", "agent.completed", "presence",
   "tick", "health", "shutdown"]

/-- Embeds `handleConnect` (lines 351-427): accepts any credentials — the
`params?.auth?.token` / `params?.auth?.password` reads only feed a log
line — and answers `hello-ok`. -/
def handleConnect (cfg : Config) (env : WsEnv) (clientId : String)
    (_params : Option Js) (id : Option Js) : HandlerOut :=
  mkOut <| sendResponse id true <| some <| .obj
    [("type", .str "hello-ok"),
     ("protocol", .num cfg.protocol),
     ("server", .obj
       [("version", .str cfg.version),
        ("commit", .str "a1b2c3d"),
        ("host", .str cfg.mdnsHostname),
        ("connId", .str ("ws-" ++ clientId)),
        ("name", .str cfg.displayName)]),
     ("features", .obj
       [("methods", .arr (supportedMethods.map .str)),
        ("events", .arr (supportedEvents.map .str))]),
     ("snapshot", .obj
       [("sessions", .arr []),
        ("nodes", .arr []),
        ("presence", .arr []),
        ("health", .obj [("status", .str "ok")]),
        ("stateVersion", .obj [("presence", .num 0), ("health", .num 0)]),
        ("uptimeMs", .num (env.uptime * 1000))]),
     ("policy", .obj
       [("maxPayload", .num 10485760),
        ("maxBufferedBytes", .num 52428800),
        ("tickIntervalMs", .num 30000)])]

/-- One `case` body of the `handleRequest` switch. -/
abbrev Handler :=
  Config → WsEnv → String → Option Js → Option Js → HandlerOut

/-- The `agent` / `agent.run` body: immediate `queued` ack plus two
delayed push events reusing the same run id. -/
def agentHandler : Handler := fun cfg env _ _ id =>
  let runId := "run_" ++ env.uuid
  { responses :=
      [sendResponse id true <| some <| .obj
        [("runId", .str runId), ("status", .str "queued")]]
    events :=
      [(200, "agent.started", .obj [("runId", .str runId)]),
       (1000, "agent.completed", .obj
         [("runId", .str runId),
          ("output", .str (cfg.displayName ++ " agent response"))])] }

/-- The dispatch table of `handleRequest` (lines 100-341): each `case`
label paired with its body, in source order (`agent` and `agent.run`
share a body through fallthrough). -/
def dispatchTable : List (String × Handler) :=
  [("connect", fun cfg env cid params id => handleConnect cfg env cid params id),
   ("health", fun cfg env _ _ id =>
     mkOut <| sendResponse id true <| some <| .obj
       [("status", .str "ok"), ("uptime", .num env.uptime),
        ("version", .str cfg.version)]),
   ("status", fun cfg env _ _ id =>
     mkOut <| sendResponse id true <| some <| .obj
       [("status", .str "ok"), ("uptime", .num env.uptime),
        ("version", .str cfg.version), ("protocol", .num cfg.protocol)]),
   ("models.list", fun cfg _ _ _ id =>
     mkOut <| sendResponse id true <| some <| .obj
       [("models", .arr
         [.obj [("id", .str "claude-3-5-sonnet"),
                ("name", .str "Claude 3.5 Sonnet"),
                ("provider", .str "anthropic")],
          .obj [("id", .str "claude-3-opus"),
                ("name", .str "Claude 3 Opus"),
                ("provider", .str "anthropic")],
          .obj [("id", .str "gpt-4o"), ("name", .str "GPT-4o"),
                ("provider", .str "openai")],
          .obj [("id", .str (cfg.serviceName ++ ":main")),
                ("name", .str cfg.displayName),
                ("provider", .str "local")]])]),
   ("usage.status", fun _ env _ _ id =>
     mkOut <| sendResponse id true <| some <| .obj
       [("usage", .obj
         [("inputTokens", .num 0), ("outputTokens", .num 0),
          ("totalTokens", .num 0), ("requestCount", .num 0),
          ("period", .str "daily"),
          ("resetAt", .str (env.iso (env.now + 86400000)))])]),
   ("sessions.list", fun _ _ _ _ id =>
     mkOut <| sendResponse id true <| some <| .obj [("sessions", .arr [])]),
   ("sessions.preview", fun _ env _ params id =>
     mkOut <| sendResponse id true <| some <| .obj
       [("session", .obj
         [("id", jsOr (params.bind (jsField · "sessionId"))
             (.str ("session_" ++ env.uuid))),
          ("name", .str "Session"),
          ("createdAt", .str (env.iso env.now)),
          ("updatedAt", .str (env.iso env.now)),
          ("messageCount", .num 0)])]),
   ("sessions.delete", fun _ _ _ _ id =>
     mkOut <| sendResponse id true <| some <| .obj [("ok", .bool true)]),
   ("sessions.reset", fun _ _ _ _ id =>
     mkOut <| sendResponse id true <| some <| .obj [("ok", .bool true)]),
   ("sessions.compact", fun _ _ _ _ id =>
     mkOut <| sendResponse id true <| some <| .obj [("ok", .bool true)]),
   ("agent", agentHandler),
   ("agent.run", agentHandler),
   ("agent.identity.get", fun cfg env _ _ id =>
     mkOut <| sendResponse id true <| some <| .obj
       [("id", .str ("agent_" ++ env.uuid)),
        ("name", .str cfg.displayName), ("version", .str cfg.version)]),
   ("agent.wait", fun cfg env _ params id =>
     mkOut <| sendResponse id true <| some <| .obj
       [("status", .str "completed"),
        ("output", .str (cfg.displayName ++ " agent completed task")),
        ("runId", jsOr (params.bind (jsField · "runId"))
           (.str ("run_" ++ env.uuid)))]),
   ("agents.list", fun _ _ _ _ id =>
     mkOut <| sendResponse id true <| some <| .obj [("agents", .arr [])]),
   ("send", fun _ env _ _ id =>
     mkOut <| sendResponse id true <| some <| .obj
       [("messageId", .str ("msg_" ++ env.uuid)), ("status", .str "sent")]),
   ("chat.send", fun _ env _ _ id =>
     mkOut <| sendResponse id true <| some <| .obj
       [("messageId", .str ("msg_" ++ env.uuid)), ("status", .str "sent")]),
   ("chat.history", fun _ _ _ _ id =>
     mkOut <| sendResponse id true <| some <| .obj
       [("messages", .arr []), ("hasMore", .bool false)]),
   ("chat.abort", fun _ _ _ _ id =>
     mkOut <| sendResponse id true <| some <| .obj
       [("ok", .bool true), ("aborted", .bool true)]),
   ("config.get", fun cfg _ _ _ id =>
     mkOut <| sendResponse id true <| some <| .obj
       [("config", .obj
         [("version", .str cfg.version), ("protocol", .num cfg.protocol),
          ("serviceName", .str cfg.serviceName),
          ("features", .obj
            [("agent", .bool true), ("chat", .bool true),
             ("tools", .bool true)])])]),
   ("config.set", fun _ _ _ _ id =>
     mkOut <| sendResponse id true <| some <| .obj [("ok", .bool true)]),
   ("config.schema", fun _ _ _ _ id =>
     mkOut <| sendResponse id true <| some <| .obj
       [("schema", .obj
         [("type", .str "object"),
          ("properties", .obj
            [("agent", .obj [("type", .str "object")]),
             ("chat", .obj [("type", .str "object")]),
             ("tools", .obj [("type", .str "object")])])])]),
   ("config.patch", fun _ _ _ _ id =>
     mkOut <| sendResponse id true <| some <| .obj [("ok", .bool true)]),
   ("node.list", fun _ _ _ _ id =>
     mkOut <| sendResponse id true <| some <| .obj [("nodes", .arr [])]),
   ("node.describe", fun _ env _ params id =>
     mkOut <| sendResponse id true <| some <| .obj
       [("node", .obj
         [("id", jsOr (params.bind (jsField · "nodeId"))
             (.str ("node_" ++ env.uuid))),
          ("name", .str "Node"), ("status", .str "online"),
          ("capabilities", .arr [.str "agent", .str "chat", .str "tools"]),
          ("connectedAt", .str (env.iso env.now))])]),
   ("node.pair.request", fun _ env _ _ id =>
     mkOut <| sendResponse id true <| some <| .obj
       [("requestId", .str ("pair_" ++ env.uuid))]),
   ("node.pair.list", fun _ _ _ _ id =>
     mkOut <| sendResponse id true <| some <| .obj [("requests", .arr [])]),
   ("node.pair.approve", fun _ _ _ _ id =>
     mkOut <| sendResponse id true <| some <| .obj [("ok", .bool true)])]

/-- The method names the switch recognizes. -/
def knownMethods : List String := dispatchTable.map (·.1)

/-- The structured error of the `default` branch. -/
def unknownMethodError (methodField : Option Js) : Js :=
  .obj [("code", .str "UNKNOWN_METHOD"),
        ("message", .str ("Method " ++
          (match methodField with
           | some v => jsTmpl v
           | none => "undefined") ++ " not implemented"))]

/-- The `default` branch: `ok:false` with a structured `UNKNOWN_METHOD`
error. -/
def unknownMethodOut (methodField : Option Js) (id : Option Js) : HandlerOut :=
  mkOut <| sendResponse id false none <| some <| unknownMethodError methodField

/-- The `switch (method)` statement: dispatch on the destructured
`method` value.  A missing or non-string `method` matches no `case`
label and falls to `default`. -/
def dispatch (cfg : Config) (env : WsEnv) (clientId : String)
    (methodField params id : Option Js) : HandlerOut :=
  match methodField with
  | some (.str m) =>
    match dispatchTable.lookup m with
    | some h => h cfg env clientId params id
    | none => unknownMethodOut (some (.str m)) id
  | other => unknownMethodOut other id

/-- Embeds `handleRequest(ws, message, clientId)`: destructure
`{method, params, id}` and dispatch on `method`. -/
def handleRequest (cfg : Config) (env : WsEnv) (clientId : String)
    (message : Js) : HandlerOut :=
  dispatch cfg env clientId (jsField message "method")
    (jsField message "params") (jsField message "id")

theorem handleRequest_eq (cfg : Config) (env : WsEnv) (cid : String) (msg : Js) :
    handleRequest cfg env cid msg =
      dispatch cfg env cid (jsField msg "method") (jsField msg "params")
        (jsField msg "id") := rfl

/-- The `{error:'parse_error', raw: data.toString().slice(0,500)}` object
recorded by the `catch` branch of the message handler. -/
def parseErrorJs (frame : String) : Js :=
  .obj [("error", .str "parse_error"), ("raw", .str (jsSlice frame 500))]

/-- Result of handling one inbound WebSocket frame: the store afterwards,
the frames/events produced, and whether the handler closed the socket
(the source never does). -/
structure WsMessageResult where
  store : AttackStore
  out : HandlerOut
  closed : Bool

/-- The `ws.on('message')` handler (lines 39-63, identical in both
variants): `try { parse; record; dispatch } catch { record parse-error }`.
`parse` stands for `JSON.parse` composed with `data.toString()` (a
library call); `parse frame = none` is a thrown `SyntaxError`.  A
`TypeError` thrown inside `recordWsMessage` (truthy message with a
non-string `method`) is caught by the same `catch` and also records the
parse-error object.  The `catch`-path `recordWsMessage` always succeeds
(its message has no `method` field); the unreachable fallback returns the
store unchanged. -/
def wsOnMessage (cfg : Config) (env : WsEnv) (parse : String → Option Js)
    (ip clientId : String) (e : DiskEnv) (s : AttackStore) (frame : String) :
    WsMessageResult :=
  let catchPath : WsMessageResult :=
    match recordWsMessage e s ⟨ip, clientId, some (parseErrorJs frame)⟩ with
    | some (s', _) => ⟨s', ⟨[], []⟩, false⟩
    | none => ⟨s, ⟨[], []⟩, false⟩
  match parse frame with
  | some message =>
    match recordWsMessage e s ⟨ip, clientId, some message⟩ with
    | some (s', _) =>
      let isReq : Bool :=
        match jsField message "type" with
        | some (.str t) => t == "req"
        | _ => false
      if isReq then ⟨s', handleRequest cfg env clientId message, false⟩
      else ⟨s', ⟨[], []⟩, false⟩
    | none => catchPath
  | none => catchPath

/-! ## mDNS query responder (`src/honeypot/mdns-server.js`)

Embeds the full variant: `parseQuery`, the record encoders,
`buildResponse`, and the `server.on('message')` handler.  Datagrams are
byte lists (each entry `< 256` for a real UDP payload). -/

/-- Embeds `Buffer.readUInt16BE(off)`: `none` models the `RangeError` thrown on
an out-of-bounds read (caught by `parseQuery`'s `try`). -/
def read16 (msg : List Nat) (off : Nat) : Option Nat :=
  if off + 2 ≤ msg.length then
    some (msg.getD off 0 * 256 + msg.getD (off + 1) 0)
  else none

/-- The question-section label loop of `parseQuery` (lines 121-132):
walk length-prefixed labels, appending a `.` (byte 46) between them,
until a zero length byte or the end of the buffer.  The name is kept as
raw label bytes (the source UTF-8-decodes them; no claim inspects the
decoded text).  `fuel` only bounds the recursion: the offset strictly
increases each iteration, so `msg.length + 1` steps always suffice and
the fuel-exhausted case is unreachable. -/
def parseLabels (msg : List Nat) : Nat → Nat → List Nat → List Nat × Nat
  | 0, offset, name => (name, offset)
  | fuel + 1, offset, name =>
    if offset < msg.length then
      let len := msg.getD offset 0
      if len = 0 then (name, offset + 1)
      else
        let label := (msg.drop (offset + 1)).take len
        let name := if name.length > 0 then name ++ 46 :: label else name ++ label
        parseLabels msg fuel (offset + len + 1) name
    else (name, offset)

/-- The parsed query returned by `parseQuery`. -/
structure MdnsQuery where
  id : Nat
  name : List Nat
  qtype : Nat
  qclass : Nat
  questionData : List Nat
  qdcount : Nat

/-- Embeds `parseQuery(msg)` (lines 109-144): reject responses (`QR` bit set)
and zero-question messages; decode the first question; any out-of-bounds
read is caught and yields `null`.  `questionData` is `msg.slice(12, offset + 4)`. -/
def parseQuery (msg : List Nat) : Option MdnsQuery :=
  match read16 msg 0, read16 msg 2, read16 msg 4 with
  | some id, some flags, some qdcount =>
    if flags &&& 0x8000 ≠ 0 ∨ qdcount = 0 then none
    else
      match parseLabels msg (msg.length + 1) 12 [] with
      | (name, off) =>
        match read16 msg off, read16 msg (off + 2) with
        | some qtype, some qclass =>
          some ⟨id, name, qtype, qclass, (msg.drop 12).take (off + 4 - 12), qdcount⟩
        | _, _ => none
  | _, _, _ => none

/-- Environment of `buildResponse`: configuration strings plus the
host addresses sampled from `os.networkInterfaces()`. -/
structure MdnsEnv where
  hostname : String
  displayName : String
  serviceName : String
  mdnsServiceType : String
  port : Nat
  publicIP : String
  ipv6 : Option String

/-- Embeds `encodeName(name)`: dot-split, length-prefixed labels, zero
terminator (ASCII configuration strings, one byte per character). -/
def encodeName (name : String) : List Nat :=
  ((name.splitOn ".").map fun part =>
    part.length :: part.toList.map Char.toNat).flatten ++ [0]

/-- Embeds `encodeTxtRecord(strings)`: length-prefixed strings. -/
def encodeTxtRecord (strings : List String) : List Nat :=
  (strings.map fun s => s.length :: s.toList.map Char.toNat).flatten

/-- Big-endian 16-bit write (`writeUInt16BE` / the explicit
`(len >> 8) & 0xff, len & 0xff` pairs). -/
def be16 (v : Nat) : List Nat :=
  [v / 256 % 256, v % 256]

/-- Embeds `encodeIPv4(ip)`: `parseInt` per dotted part (`Buffer.from` truncates
mod 256; a non-numeric part, `NaN` in JS, becomes 0). -/
def encodeIPv4 (ip : String) : List Nat :=
  (ip.splitOn ".").map fun p => (p.toNat?.getD 0) % 256

/-- Hexadecimal digit value (0 for non-digits, approximating
`parseInt(-, 16)` on the well-formed address strings the OS returns). -/
def hexDigit (c : Char) : Nat :=
  if '0' ≤ c ∧ c ≤ '9' then c.toNat - '0'.toNat
  else if 'a' ≤ c ∧ c ≤ 'f' then c.toNat - 'a'.toNat + 10
  else if 'A' ≤ c ∧ c ≤ 'F' then c.toNat - 'A'.toNat + 10
  else 0

def hexNat (s : String) : Nat :=
  s.foldl (fun a c => a * 16 + hexDigit c) 0

/-- Embeds `encodeIPv6(ip)`: expand the `fe80::` prefix, split on `:`, write
eight big-endian 16-bit groups (`parts[i] || '0'`). -/
def encodeIPv6 (ip : String) : List Nat :=
  let full := ip.replace "fe80::" "fe80:0000:0000:0000:"
  let parts := full.splitOn ":"
  ((List.range 8).map fun i =>
    let p := parts.getD i ""
    be16 (hexNat (if p = "" then "0" else p))).flatten

/-- Embeds `buildTxtRecords()` (full variant, lines 51-66). -/
def buildTxtRecords (env : MdnsEnv) : List String :=
  ["role=gateway",
   "gatewayPort=" ++ toString env.port,
   "lanHost=" ++ env.hostname ++ ".local",
   "displayName=" ++ env.hostname,
   "cliPath=/home/user/.npm-global/lib/node_modules/" ++ env.serviceName
     ++ "/dist/entry.js",
   "sshPort=22",
   "transport=gateway"]

/-- The 12-byte reply header written at offsets 0-10: transaction id,
flags `0x8400` (QR and AA set), QDCOUNT 1, ANCOUNT 1, NSCOUNT 0 and the
additional-record count. -/
def dnsHeader (id arcount : Nat) : List Nat :=
  be16 id ++ [0x84, 0x00] ++ be16 1 ++ be16 1 ++ be16 0 ++ be16 arcount

/-- Embeds `buildResponse(query)` (lines 147-273): 12-byte header with the
query's transaction id and flags `0x8400`, the original question bytes,
then PTR answer and TXT/SRV/A/(AAAA)/NSEC additionals, all with TTL 10. -/
def buildResponse (env : MdnsEnv) (query : MdnsQuery) : List Nat :=
  let serviceType := "_" ++ env.mdnsServiceType ++ "._tcp.local"
  let serviceName := env.hostname ++ " (" ++ env.displayName ++ ")." ++ serviceType
  let hostLocal := env.hostname ++ ".local"
  let ttl : List Nat := [0, 0, 0, 10]
  let arcount := 4 + (if env.ipv6.isSome then 1 else 0) + 1
  let header := dnsHeader query.id arcount
  let ptrData := encodeName serviceName
  let ptrRecord :=
    encodeName serviceType ++ [0, 12] ++ [0, 1] ++ ttl
      ++ be16 ptrData.length ++ ptrData
  let txtData := encodeTxtRecord (buildTxtRecords env)
  let txtRecord :=
    encodeName serviceName ++ [0, 16, 0, 1] ++ ttl
      ++ be16 txtData.length ++ txtData
  let srvData := be16 0 ++ be16 0 ++ be16 env.port ++ encodeName hostLocal
  let srvRecord :=
    encodeName serviceName ++ [0, 33, 0, 1] ++ ttl
      ++ be16 srvData.length ++ srvData
  let aRecord :=
    encodeName hostLocal ++ [0, 1, 0, 1] ++ ttl ++ [0, 4]
      ++ encodeIPv4 env.publicIP
  let aaaaRecord :=
    match env.ipv6 with
    | some ip =>
      encodeName hostLocal ++ [0, 28, 0, 1] ++ ttl ++ [0, 16] ++ encodeIPv6 ip
    | none => []
  let nsecServiceData := encodeName serviceName ++ [0, 5, 0x00, 0x00, 0x80, 0x00, 0x40]
  let nsecServiceRecord :=
    encodeName serviceName ++ [0, 47, 0, 1] ++ ttl
      ++ be16 nsecServiceData.length ++ nsecServiceData
  let nsecHostBitmap :=
    if env.ipv6.isSome then [0, 4, 0x40, 0x00, 0x00, 0x08] else [0, 1, 0x40]
  let nsecHostData := encodeName hostLocal ++ nsecHostBitmap
  let nsecHostRecord :=
    encodeName hostLocal ++ [0, 47, 0, 1] ++ ttl
      ++ be16 nsecHostData.length ++ nsecHostData
  header ++ query.questionData ++ ptrRecord ++ txtRecord ++ srvRecord
    ++ aRecord ++ aaaaRecord ++ nsecServiceRecord ++ nsecHostRecord

/-- The querying peer (`rinfo`). -/
structure Rinfo where
  address : String
  port : Nat

/-- The `server.on('message')` handler (lines 284-297): parse, and on
success build and `server.send` one unicast reply to `rinfo`.  The
handler performs no call into the attack store — the store passes
through unchanged. -/
def mdnsOnMessage (env : MdnsEnv) (s : AttackStore) (msg : List Nat)
    (rinfo : Rinfo) : AttackStore × List (List Nat × Nat × String) :=
  match parseQuery msg with
  | some query => (s, [(buildResponse env query, rinfo.port, rinfo.address)])
  | none => (s, [])

/-! ## Theorems

One theorem per claim of the specification audit, with concrete-input
witnesses for the theorems that carry hypotheses. -/

/-! ### C2: deterministic, ordered HTTP classification -/

/-- Injection-indicator test of rule 2, written from the spec's wording. -/
def specInjIndicator (body : String) : Bool :=
  strIncludes body "ignore" || strIncludes body "system" ||
    strIncludes body "jailbreak"

/-- The spec's classification rules in priority order (`§4.2`), written
from the spec's words: each rule maps the lowercased path/body to a
category when it fires.  This is the refinement-side definition,
compared below with `categorizeAttack`, which is translated from the
source. -/
def specHttpRules : List (String → String → Option String) :=
  [fun p _ => if strIncludes p "/tools/invoke" then some "tool_invoke" else none,
   fun p b => if strIncludes p "/v1/chat/completions" then
       some (if specInjIndicator b then "prompt_injection" else "chat_completion")
     else none,
   fun p _ => if strIncludes p "/v1/responses" then some "openresponses" else none,
   fun p _ => if strIncludes p "/v1/models" then some "reconnaissance" else none,
   fun p _ => if p = "/" then some "ui_access" else none,
   fun p _ => if strIncludes p "/health" then some "health_check" else none]

/-- First-match evaluation of an ordered rule list, defaulting to
`other`. -/
def specFirstMatch : List (String → String → Option String) → String → String → String
  | [], _, _ => "other"
  | r :: rest, p, b =>
    match r p b with
    | some c => c
    | none => specFirstMatch rest p b

/-- C2 — HTTP classification is deterministic and ordered: requests with
equal path and body classify identically; `categorizeAttack` equals
first-match evaluation of the spec's rules in the fixed priority order
tool_invoke, chat-completions (prompt_injection on an injection
indicator, else chat_completion), openresponses, reconnaissance,
ui_access (root exactly), health_check, else other; and a body
containing "jailbreak" never yields `chat_completion` — on the
chat-completions path (absent the higher-priority tool path) it always
yields `prompt_injection`. -/
theorem categorize_deterministic_ordered :
    (∀ d₁ d₂ : HttpData, d₁.path = d₂.path → d₁.body = d₂.body →
      categorizeAttack d₁ = categorizeAttack d₂) ∧
    (∀ d : HttpData,
      categorizeAttack d =
        specFirstMatch specHttpRules ((d.path.map jsToLower).getD "")
          (jsToLower d.body)) ∧
    (∀ d : HttpData, strIncludes (jsToLower d.body) "jailbreak" = true →
      categorizeAttack d ≠ "chat_completion") ∧
    (∀ d : HttpData,
      strIncludes ((d.path.map jsToLower).getD "") "/v1/chat/completions" = true →
      strIncludes ((d.path.map jsToLower).getD "") "/tools/invoke" = false →
      strIncludes (jsToLower d.body) "jailbreak" = true →
      categorizeAttack d = "prompt_injection") := by
  refine ⟨?_, ?_, ?_, ?_⟩
  · intro d₁ d₂ hp hb
    simp only [categorizeAttack, hp, hb]
  · intro d
    simp only [categorizeAttack, specFirstMatch, specHttpRules, specInjIndicator]
    split_ifs <;> simp_all [specFirstMatch]
  · intro d hj
    simp only [categorizeAttack]
    split_ifs <;> simp_all
  · intro d hc ht hj
    simp only [categorizeAttack]
    split_ifs <;> simp_all

/-- Sample chat-completions request whose body contains "JAILBREAK". -/
def sampleInjection : HttpData :=
  { ip := "198.51.100.7", method := "POST"
    path := some "/v1/chat/completions", headers := []
    body := "please JAILBREAK the system prompt", userAgent := none }

/-- Witness for C2 at a concrete request. -/
theorem categorize_deterministic_ordered_witness :
    strIncludes ((sampleInjection.path.map jsToLower).getD "")
        "/v1/chat/completions" = true ∧
    strIncludes ((sampleInjection.path.map jsToLower).getD "")
        "/tools/invoke" = false ∧
    strIncludes (jsToLower sampleInjection.body) "jailbreak" = true ∧
    categorizeAttack sampleInjection = "prompt_injection" ∧
    categorizeAttack sampleInjection ≠ "chat_completion" := by
  refine ⟨by decide, by decide, by decide, ?_, ?_⟩
  · exact categorize_deterministic_ordered.2.2.2 sampleInjection
      (by decide) (by decide) (by decide)
  · exact categorize_deterministic_ordered.2.2.1 sampleInjection (by decide)


/-! ### C3: lifetime counters count appended records -/

/-- Effect of one call on the per-category counters. -/
theorem step_attacksByType (s : AttackStore) (p : DiskEnv × Op) (c : String) :
    (step s p).stats.attacksByType c =
      s.stats.attacksByType c +
        (match opCategory p.2 with
         | some k => if c = k then 1 else 0
         | none => 0) := by
  rcases p with ⟨e, op⟩
  cases op with
  | http d =>
    simp only [step, opCategory, recordHttpRequest, addAttack, mkHttpRecord, bump]
    split <;> omega
  | wsConn d =>
    simp only [step, opCategory, recordWsConnection, addAttack, mkWsConnRecord, bump]
    split <;> omega
  | wsMsg d =>
    simp only [step, opCategory]
    cases hc : categorizeWsMessage d.message with
    | none => simp [recordWsMessage, hc]
    | some k =>
      simp only [recordWsMessage, hc, Option.map_some', mkWsMsgRecord, addAttack, bump]
      split <;> omega
  | mdns d =>
    simp only [step, opCategory, recordMdnsQuery, addAttack, mkMdnsRecord, bump]
    split <;> omega

/-- Effect of one call on the unique-IP set. -/
theorem step_uniqueIps (s : AttackStore) (p : DiskEnv × Op) :
    (step s p).stats.uniqueIps =
      (match opIp p.2 with
       | some ip => insert ip s.stats.uniqueIps
       | none => s.stats.uniqueIps) := by
  rcases p with ⟨e, op⟩
  cases op with
  | http d => simp [step, opIp, recordHttpRequest, addAttack]
  | wsConn d => simp [step, opIp, recordWsConnection, addAttack]
  | wsMsg d =>
    simp only [step, opIp]
    cases hc : categorizeWsMessage d.message with
    | none => simp [recordWsMessage, hc]
    | some k => simp [recordWsMessage, hc, addAttack]
  | mdns d => simp [step, opIp, recordMdnsQuery, addAttack]

/-- Category counters over a whole run (generalized over the start
state). -/
theorem run_attacksByType (l : List (DiskEnv × Op)) (s : AttackStore) (c : String) :
    (run s l).stats.attacksByType c =
      s.stats.attacksByType c + ((l.map (·.2)).filterMap opCategory).count c := by
  induction l generalizing s with
  | nil => simp [run]
  | cons p t ih =>
    simp only [run, List.foldl_cons] at *
    rw [ih (step s p), step_attacksByType]
    cases hc : opCategory p.2 with
    | none => simp [hc, List.filterMap_cons]
    | some k =>
      simp only [List.map_cons, List.filterMap_cons, hc, List.count_cons]
      by_cases h : c = k
      · subst h; simp; omega
      · simp [h, Ne.symm h]

/-- Unique-IP set over a whole run (generalized over the start state). -/
theorem run_uniqueIps (l : List (DiskEnv × Op)) (s : AttackStore) :
    (run s l).stats.uniqueIps =
      s.stats.uniqueIps ∪ ((l.map (·.2)).filterMap opIp).toFinset := by
  induction l generalizing s with
  | nil => simp [run]
  | cons p t ih =>
    simp only [run, List.foldl_cons] at *
    rw [ih (step s p), step_uniqueIps]
    cases hi : opIp p.2 with
    | none => simp [hi, List.filterMap_cons]
    | some ip =>
      simp only [List.map_cons, List.filterMap_cons, hi, List.toFinset_cons,
        Finset.insert_union, Finset.union_insert]

/-- The categories of the appended records are exactly `opCategory` of
the calls that appended them. -/
theorem opRecord_category (op : Op) :
    (opRecord op).map (·.category) = opCategory op := by
  cases op with
  | http d => rfl
  | wsConn d => rfl
  | mdns d => rfl
  | wsMsg d =>
    simp only [opRecord, opCategory, Option.map_map]
    have h : ((fun r : AttackRecord => r.category) ∘ mkWsMsgRecord d) =
        fun c => c := funext fun _ => rfl
    rw [h]
    exact Option.map_id'

theorem appendedRecs_categories (ops : List Op) :
    (appendedRecs ops).map (·.category) = ops.filterMap opCategory := by
  rw [appendedRecs, List.map_filterMap]
  exact List.filterMap_congr fun op _ => opRecord_category op

/-- C3 — counter consistency: from the empty store, after any sequence of
record calls (under any disk-failure pattern), `getStats().attacksByType c`
equals the number of appended records whose category is `c`, and
`getStats().uniqueIps` equals the number of distinct source IPs over the
HTTP, WebSocket-connection and mDNS calls; both are independent of the
configured window capacity. -/
theorem stats_counters_consistent (l : List (DiskEnv × Op)) (c : String)
    (m now : Nat) :
    (getStats (run (initStore m) l) now).attacksByType c =
        ((appendedRecs (l.map (·.2))).map (·.category)).count c ∧
    (getStats (run (initStore m) l) now).uniqueIps =
        ((l.map (·.2)).filterMap opIp).toFinset.card := by
  constructor
  · rw [appendedRecs_categories]
    have h := run_attacksByType l (initStore m) c
    simp only [getStats]
    rw [h]
    simp [initStore, initStats]
  · have h := run_uniqueIps l (initStore m)
    simp only [getStats]
    rw [h]
    simp [initStore, initStats]



/-! ### C10: frame effect of `recordWsMessage` -/

/-- C10 — a completing `recordWsMessage` call increments only
`totalWsMessages` and the `attacksByType` entry for the message's
category; it leaves the unique-IP set, `totalHttpRequests`,
`totalWsConnections`, `totalMdnsQueries` and `attacksByEndpoint`
unchanged — in particular the message's source IP is never added to the
unique-IP set. -/
theorem recordWsMessage_frame_effect (e : DiskEnv) (s : AttackStore)
    (d : WsMsgData) (s' : AttackStore) (r : AttackRecord)
    (h : recordWsMessage e s d = some (s', r)) :
    s'.stats.uniqueIps = s.stats.uniqueIps ∧
    s'.stats.totalHttpRequests = s.stats.totalHttpRequests ∧
    s'.stats.totalWsConnections = s.stats.totalWsConnections ∧
    s'.stats.totalMdnsQueries = s.stats.totalMdnsQueries ∧
    s'.stats.attacksByEndpoint = s.stats.attacksByEndpoint ∧
    s'.stats.totalWsMessages = s.stats.totalWsMessages + 1 ∧
    s'.stats.attacksByType = bump s.stats.attacksByType r.category := by
  cases hc : categorizeWsMessage d.message with
  | none => simp [recordWsMessage, hc] at h
  | some cat =>
    simp only [recordWsMessage, hc, Option.map_some', Option.some_inj] at h
    obtain ⟨hs, hr⟩ := Prod.mk.injEq .. ▸ h
    subst hs hr
    refine ⟨rfl, rfl, rfl, rfl, rfl, rfl, rfl⟩

/-- Sample WebSocket message data for the C10 witness. -/
def sampleWsMsg : WsMsgData :=
  { ip := "203.0.113.9", clientId := "client-1"
    message := some (.obj [("type", .str "req"), ("method", .str "send")]) }

/-- Witness for C10 at a concrete call. -/
theorem recordWsMessage_frame_effect_witness :
    recordWsMessage okDisk (initStore 50) sampleWsMsg =
      some ((recordWsMessage okDisk (initStore 50) sampleWsMsg).get rfl) ∧
    (((recordWsMessage okDisk (initStore 50) sampleWsMsg).get rfl).1.stats.uniqueIps
        = (initStore 50).stats.uniqueIps ∧
      ((recordWsMessage okDisk (initStore 50) sampleWsMsg).get rfl).1.stats.totalWsMessages
        = (initStore 50).stats.totalWsMessages + 1) := by
  refine ⟨rfl, ?_⟩
  have h := recordWsMessage_frame_effect okDisk (initStore 50) sampleWsMsg
    ((recordWsMessage okDisk (initStore 50) sampleWsMsg).get rfl).1
    ((recordWsMessage okDisk (initStore 50) sampleWsMsg).get rfl).2 rfl
  exact ⟨h.1, h.2.2.2.2.2.1⟩

/-! ### C6: persistence failures never reach the in-memory path -/

/-- C6 — disk-failure atomicity: under any combination of log-append and
stats-snapshot failures, every record operation produces the same
in-memory window, the same aggregate counters and the same returned
record as the all-writes-succeed run (and, for `recordWsMessage`,
throws in exactly the same cases); exceptions from the swallowed `catch`
blocks never reach the caller. -/
theorem disk_failure_atomicity (e : DiskEnv) (s : AttackStore) :
    (∀ d : HttpData,
      (recordHttpRequest e s d).1.attacks = (recordHttpRequest okDisk s d).1.attacks ∧
      (recordHttpRequest e s d).1.stats = (recordHttpRequest okDisk s d).1.stats ∧
      (recordHttpRequest e s d).2 = (recordHttpRequest okDisk s d).2) ∧
    (∀ d : WsConnData,
      (recordWsConnection e s d).1.attacks = (recordWsConnection okDisk s d).1.attacks ∧
      (recordWsConnection e s d).1.stats = (recordWsConnection okDisk s d).1.stats ∧
      (recordWsConnection e s d).2 = (recordWsConnection okDisk s d).2) ∧
    (∀ d : WsMsgData,
      (recordWsMessage e s d).map (fun p => (p.1.attacks, p.1.stats, p.2)) =
      (recordWsMessage okDisk s d).map (fun p => (p.1.attacks, p.1.stats, p.2))) ∧
    (∀ d : MdnsData,
      (recordMdnsQuery e s d).1.attacks = (recordMdnsQuery okDisk s d).1.attacks ∧
      (recordMdnsQuery e s d).1.stats = (recordMdnsQuery okDisk s d).1.stats ∧
      (recordMdnsQuery e s d).2 = (recordMdnsQuery okDisk s d).2) := by
  refine ⟨fun d => ⟨rfl, rfl, rfl⟩, fun d => ⟨rfl, rfl, rfl⟩, fun d => ?_,
    fun d => ⟨rfl, rfl, rfl⟩⟩
  cases hc : categorizeWsMessage d.message <;>
    simp [recordWsMessage, hc, addAttack]



/-! ### C4: rolling-window bound -/

/-- The last `m` elements of a list (the intended effect of
`slice(-m)` for `m ≥ 1`). -/
def lastN (m : Nat) (l : List AttackRecord) : List AttackRecord :=
  l.drop (l.length - m)

theorem appendedRecs_cons (op : Op) (ops : List Op) :
    appendedRecs (op :: ops) = (opRecord op).toList ++ appendedRecs ops := by
  cases h : opRecord op <;> simp [appendedRecs, List.filterMap_cons, h]

/-- One `_addAttack` turns the last-`m` window of `L` into the last-`m`
window of `L ++ [a]`, provided the capacity is at least 1. -/
theorem addAttack_window (e : DiskEnv) (s : AttackStore) (a : AttackRecord)
    (hm : 1 ≤ s.maxInMemory) (L : List AttackRecord)
    (hw : s.attacks = lastN s.maxInMemory L) :
    (addAttack e s a).attacks = lastN s.maxInMemory (L ++ [a]) := by
  set m := s.maxInMemory with hmdef
  simp only [addAttack, hw]
  by_cases hml : L.length < m
  · have h0 : L.length - m = 0 := by omega
    have hL : lastN m L = L := by simp [lastN, h0]
    rw [hL, if_neg (by simp; omega)]
    simp [lastN, show L.length + 1 - m = 0 by omega]
  · push_neg at hml
    have hlast : (lastN m L).length = m := by simp [lastN]; omega
    rw [if_pos (by simp [hlast])]
    have hm0 : ¬ m = 0 := by omega
    simp only [jsSliceLast, if_neg hm0, List.length_append, hlast,
      List.length_singleton]
    have h1 : m + 1 - m = 1 := by omega
    rw [h1, List.drop_append_eq_append_drop, hlast,
      show (1 : Nat) - m = 0 by omega, List.drop_zero]
    simp only [lastN, List.drop_drop, List.drop_append_eq_append_drop,
      List.length_append, List.length_singleton]
    rw [show L.length + 1 - m - L.length = 0 by omega, List.drop_zero]
    congr 2
    omega

/-- Effect of one call on the window (any disk-failure pattern) and on
the capacity (never modified). -/
theorem step_window (p : DiskEnv × Op) (s : AttackStore)
    (L : List AttackRecord) (hm : 1 ≤ s.maxInMemory)
    (hw : s.attacks = lastN s.maxInMemory L) :
    (step s p).attacks = lastN s.maxInMemory (L ++ (opRecord p.2).toList) ∧
    (step s p).maxInMemory = s.maxInMemory := by
  rcases p with ⟨e, op⟩
  cases op with
  | http d =>
    exact ⟨addAttack_window e s (mkHttpRecord d) hm L hw, rfl⟩
  | wsConn d =>
    exact ⟨addAttack_window e s (mkWsConnRecord d) hm L hw, rfl⟩
  | wsMsg d =>
    cases hc : categorizeWsMessage d.message with
    | none => simp [step, recordWsMessage, hc, opRecord, hw]
    | some cat =>
      refine ⟨?_, ?_⟩
      · simpa [step, recordWsMessage, hc, opRecord] using
          addAttack_window e s (mkWsMsgRecord d cat) hm L hw
      · simp [step, recordWsMessage, hc, addAttack]
  | mdns d =>
    exact ⟨addAttack_window e s (mkMdnsRecord d) hm L hw, rfl⟩

/-- Window shape over a whole run. -/
theorem run_window (l : List (DiskEnv × Op)) (s : AttackStore)
    (L : List AttackRecord) (hm : 1 ≤ s.maxInMemory)
    (hw : s.attacks = lastN s.maxInMemory L) :
    (run s l).attacks = lastN s.maxInMemory (L ++ appendedRecs (l.map (·.2))) ∧
    (run s l).maxInMemory = s.maxInMemory := by
  induction l generalizing s L with
  | nil => simpa [run, appendedRecs] using hw
  | cons p t ih =>
    obtain ⟨hw', hmax⟩ := step_window p s L hm hw
    have ih' := ih (step s p) (L ++ (opRecord p.2).toList)
      (by rw [hmax]; exact hm) (by rw [hmax]; exact hw')
    simp only [run, List.foldl_cons, List.map_cons, appendedRecs_cons] at *
    rw [ih'.1, ih'.2, hmax]
    refine ⟨by simp [List.append_assoc], rfl⟩

/-- Effect of one successful-disk call on the daily log. -/
theorem step_log_ok (op : Op) (s : AttackStore) :
    (step s (okDisk, op)).log = s.log ++ (opRecord op).toList := by
  cases op with
  | http d => simp [step, recordHttpRequest, addAttack, appendToLog, okDisk, opRecord]
  | wsConn d => simp [step, recordWsConnection, addAttack, appendToLog, okDisk, opRecord]
  | wsMsg d =>
    cases hc : categorizeWsMessage d.message with
    | none => simp [step, recordWsMessage, hc, opRecord]
    | some cat =>
      simp [step, recordWsMessage, hc, opRecord, addAttack, appendToLog, okDisk]
  | mdns d => simp [step, recordMdnsQuery, addAttack, appendToLog, okDisk, opRecord]

/-- Daily log over a whole run with successful persistence. -/
theorem run_log_ok (ops : List Op) (s : AttackStore) :
    (run s (ops.map (fun o => (okDisk, o)))).log = s.log ++ appendedRecs ops := by
  induction ops generalizing s with
  | nil => simp [run, appendedRecs]
  | cons op t ih =>
    simp only [run, List.map_cons, List.foldl_cons, appendedRecs_cons] at *
    rw [ih (step s (okDisk, op)), step_log_ok, List.append_assoc]

theorem getRecentAttacks_one (s : AttackStore) :
    getRecentAttacks s 1 0 = s.attacks.getLast?.toList := by
  simp [getRecentAttacks, List.take_one, List.head?_reverse]

theorem lastN_getLast? (m : Nat) (hm : 1 ≤ m) (L : List AttackRecord) :
    (lastN m L).getLast? = L.getLast? := by
  rw [lastN]
  cases L with
  | nil => simp
  | cons b t =>
    have hne : (b :: t).drop ((b :: t).length - m) ≠ [] := by
      rw [Ne, List.drop_eq_nil_iff]
      simp only [List.length_cons]
      omega
    conv_rhs => rw [← List.take_append_drop ((b :: t).length - m) (b :: t)]
    rw [List.getLast?_append_of_ne_nil _ hne]

/-- Counterexample to C4 as stated: with configured capacity 0 the trim
branch runs `slice(-0)`, which is `slice(0)` and keeps every record, so
after one record operation the window holds 1 > 0 records. -/
theorem window_capacity_zero_counterexample :
    ((recordHttpRequest okDisk (initStore 0) sampleInjection).1.attacks.length = 1) ∧
    ¬ ((recordHttpRequest okDisk (initStore 0) sampleInjection).1.attacks.length
        ≤ (initStore 0).maxInMemory) := by
  constructor
  · rfl
  · intro h
    have h1 : (recordHttpRequest okDisk (initStore 0) sampleInjection).1.attacks.length
        = 1 := rfl
    have h2 : (initStore 0).maxInMemory = 0 := rfl
    omega

/-- C4 (amended) — rolling-window bound for any capacity `m ≥ 1`: after
any sequence of record calls the in-memory window is exactly the last
`m` appended records (so its size never exceeds `m` and it is the oldest
records that are dropped), `getRecentAttacks 1 0` returns the most
recently appended record, and the disk log keeps every appended line. -/
theorem window_bounded (m : Nat) (ops : List Op) (hm : 1 ≤ m) :
    (run (initStore m) (ops.map (fun o => (okDisk, o)))).attacks
        = lastN m (appendedRecs ops) ∧
    (run (initStore m) (ops.map (fun o => (okDisk, o)))).attacks.length ≤ m ∧
    (run (initStore m) (ops.map (fun o => (okDisk, o)))).log = appendedRecs ops ∧
    getRecentAttacks (run (initStore m) (ops.map (fun o => (okDisk, o)))) 1 0
        = (appendedRecs ops).getLast?.toList := by
  have hw := run_window (ops.map (fun o => (okDisk, o))) (initStore m) [] hm
    (by simp [lastN, initStore])
  have hmap : (ops.map (fun o => (okDisk, o))).map (·.2) = ops := by simp
  rw [hmap] at hw
  have h1 : (run (initStore m) (ops.map (fun o => (okDisk, o)))).attacks
      = lastN m (appendedRecs ops) := hw.1
  have hlog : (run (initStore m) (ops.map (fun o => (okDisk, o)))).log
      = appendedRecs ops := run_log_ok ops (initStore m)
  refine ⟨h1, ?_, hlog, ?_⟩
  · rw [h1, lastN]
    simp only [List.length_drop]
    omega
  · rw [getRecentAttacks_one, h1, lastN_getLast? m hm]

/-- Witness for C4 (amended) at capacity 3 and four HTTP records. -/
theorem window_bounded_witness :
    1 ≤ 3 ∧
    ((run (initStore 3) (([Op.http sampleInjection, Op.http sampleInjection,
          Op.http sampleInjection, Op.http sampleInjection]).map
          (fun o => (okDisk, o)))).attacks.length ≤ 3) := by
  refine ⟨by omega, ?_⟩
  exact (window_bounded 3 [Op.http sampleInjection, Op.http sampleInjection,
    Op.http sampleInjection, Op.http sampleInjection] (by omega)).2.1



/-! ### C5: unparseable WebSocket frames -/

/-- Runtime environment sample for concrete WebSocket evaluations. -/
def wsEnv0 : WsEnv :=
  { uptime := 12, now := 1700000000000, uuid := "00000000-0000-4000-8000-000000000000"
    iso := fun _ => "2026-01-24T00:00:00.000Z" }

/-- C5 evaluation — the parse-error path records the frame, but under
category `ws_other`, not `malformed`: the `{error:'parse_error', raw}`
wrapper object is truthy and has no `method` field, so
`_categorizeWsMessage`'s `malformed` branch cannot fire.  At the
concrete non-JSON frame "not json" the handler appends exactly one
`ws_message` record carrying the raw excerpt, does not close the
connection, and the excerpt is the non-empty frame text capped at 500
characters. -/
theorem ws_parse_error_records_ws_other :
    (∀ frame : String,
      categorizeWsMessage (some (parseErrorJs frame)) = some "ws_other") ∧
    ((wsOnMessage moltbotConfig wsEnv0 (fun _ => none) "203.0.113.9" "client-1"
        okDisk (initStore 50) "not json").store.attacks.map (·.category)
      = ["ws_other"]) ∧
    ((wsOnMessage moltbotConfig wsEnv0 (fun _ => none) "203.0.113.9" "client-1"
        okDisk (initStore 50) "not json").store.attacks.map (·.payload)
      = [.wsMessage "client-1" (some (parseErrorJs "not json")) none]) ∧
    ((wsOnMessage moltbotConfig wsEnv0 (fun _ => none) "203.0.113.9" "client-1"
        okDisk (initStore 50) "not json").closed = false) ∧
    ((getStats (wsOnMessage moltbotConfig wsEnv0 (fun _ => none) "203.0.113.9"
        "client-1" okDisk (initStore 50) "not json").store 0).totalWsMessages = 1) ∧
    jsSlice "not json" 500 = "not json" ∧
    "not json" ≠ "" ∧
    ("ws_other" : String) ≠ "malformed" := by
  refine ⟨fun frame => rfl, rfl, rfl, rfl, rfl, ?_, by decide, by decide⟩
  decide

/-! ### C1: parsed mDNS queries are never recorded -/

/-- Configuration/environment of the mDNS responder under the default
`moltbot` identity. -/
def mdnsEnv0 : MdnsEnv :=
  { hostname := "workstation", displayName := "MoltBot"
    serviceName := "moltbot", mdnsServiceType := "moltbot-gw"
    port := 18789, publicIP := "192.0.2.5", ipv6 := none }

/-- A minimal PTR query datagram: id `0x1234`, flags 0, one question for
the name "a", type PTR (12), class IN (1). -/
def samplePtrQuery : List Nat :=
  [0x12, 0x34, 0, 0, 0, 1, 0, 0, 0, 0, 0, 0, 1, 97, 0, 0, 12, 0, 1]

def sampleRinfo : Rinfo := { address := "192.0.2.1", port := 5353 }

/-- C1 evaluation — the mDNS message handler performs no store call at
all: for every datagram the store passes through unchanged, even though
`samplePtrQuery` parses successfully and a reply is sent; in particular
`recordMdnsQuery` is never invoked and `totalMdnsQueries` stays 0 while
the claim requires a recorded mDNS-query fact. -/
theorem mdns_queries_never_recorded :
    (∀ (env : MdnsEnv) (s : AttackStore) (msg : List Nat) (r : Rinfo),
      (mdnsOnMessage env s msg r).1 = s) ∧
    (parseQuery samplePtrQuery).isSome = true ∧
    (mdnsOnMessage mdnsEnv0 (initStore 100) samplePtrQuery sampleRinfo).2.length
      = 1 ∧
    (getStats (mdnsOnMessage mdnsEnv0 (initStore 100) samplePtrQuery
        sampleRinfo).1 0).totalMdnsQueries = 0 ∧
    (getStats (mdnsOnMessage mdnsEnv0 (initStore 100) samplePtrQuery
        sampleRinfo).1 0).attacksInMemory = 0 := by
  refine ⟨?_, rfl, rfl, rfl, rfl⟩
  intro env s msg r
  rw [mdnsOnMessage]
  cases parseQuery msg <;> rfl



/-! ### C7: `connect` is never rejected -/

/-- C7 — every request frame with method "connect", whatever its
`params` (any token, any password, or none), gets a `res` frame with
`ok:true` whose `hello-ok` payload carries the protocol version, the
server identity block, the advertised method and event lists, the
empty-but-shaped snapshot and the policy block; a connect request is
never rejected. -/
theorem connect_always_accepted (cfg : Config) (env : WsEnv) (cid : String)
    (msg : Js) (hm : jsField msg "method" = some (.str "connect")) :
    ∃ r : WsRes, handleRequest cfg env cid msg = mkOut r ∧
      r.id = jsField msg "id" ∧ r.ok = true ∧ r.error = none ∧
      ∃ p : Js, r.payload = some p ∧
        jsField p "type" = some (.str "hello-ok") ∧
        jsField p "protocol" = some (.num cfg.protocol) ∧
        ((jsField p "server").bind (jsField · "version"))
          = some (.str cfg.version) ∧
        ((jsField p "server").bind (jsField · "name"))
          = some (.str cfg.displayName) ∧
        ((jsField p "server").bind (jsField · "connId"))
          = some (.str ("ws-" ++ cid)) ∧
        ((jsField p "features").bind (jsField · "methods"))
          = some (.arr (supportedMethods.map .str)) ∧
        ((jsField p "features").bind (jsField · "events"))
          = some (.arr (supportedEvents.map .str)) ∧
        ((jsField p "snapshot").bind (jsField · "sessions")) = some (.arr []) ∧
        ((jsField p "snapshot").bind (jsField · "nodes")) = some (.arr []) ∧
        ((jsField p "snapshot").bind (jsField · "presence")) = some (.arr []) ∧
        ((jsField p "snapshot").bind (jsField · "health"))
          = some (.obj [("status", .str "ok")]) ∧
        ((jsField p "policy").bind (jsField · "maxPayload"))
          = some (.num 10485760) ∧
        ((jsField p "policy").bind (jsField · "maxBufferedBytes"))
          = some (.num 52428800) ∧
        ((jsField p "policy").bind (jsField · "tickIntervalMs"))
          = some (.num 30000) := by
  have hr : handleRequest cfg env cid msg =
      handleConnect cfg env cid (jsField msg "params") (jsField msg "id") := by
    rw [handleRequest_eq, hm]
    rfl
  rw [hr]
  exact ⟨_, rfl, rfl, rfl, rfl, _, rfl, rfl, rfl, rfl, rfl, rfl, rfl, rfl,
    rfl, rfl, rfl, rfl, rfl, rfl, rfl⟩

/-- A concrete connect frame with a captured token. -/
def sampleConnectFrame : Js :=
  .obj [("type", .str "req"), ("id", .num 1), ("method", .str "connect"),
        ("params", .obj [("auth", .obj [("token", .str "test-token-123")])])]

/-- Witness for C7 at a concrete connect frame. -/
theorem connect_always_accepted_witness :
    jsField sampleConnectFrame "method" = some (.str "connect") ∧
    (∃ r : WsRes,
      handleRequest moltbotConfig wsEnv0 "client-1" sampleConnectFrame
          = mkOut r ∧
        r.id = jsField sampleConnectFrame "id" ∧ r.ok = true ∧
        r.error = none ∧
        ∃ p : Js, r.payload = some p ∧
          jsField p "type" = some (.str "hello-ok") ∧
          jsField p "protocol" = some (.num moltbotConfig.protocol) ∧
          ((jsField p "server").bind (jsField · "version"))
            = some (.str moltbotConfig.version) ∧
          ((jsField p "server").bind (jsField · "name"))
            = some (.str moltbotConfig.displayName) ∧
          ((jsField p "server").bind (jsField · "connId"))
            = some (.str ("ws-" ++ "client-1")) ∧
          ((jsField p "features").bind (jsField · "methods"))
            = some (.arr (supportedMethods.map .str)) ∧
          ((jsField p "features").bind (jsField · "events"))
            = some (.arr (supportedEvents.map .str)) ∧
          ((jsField p "snapshot").bind (jsField · "sessions")) = some (.arr []) ∧
          ((jsField p "snapshot").bind (jsField · "nodes")) = some (.arr []) ∧
          ((jsField p "snapshot").bind (jsField · "presence")) = some (.arr []) ∧
          ((jsField p "snapshot").bind (jsField · "health"))
            = some (.obj [("status", .str "ok")]) ∧
          ((jsField p "policy").bind (jsField · "maxPayload"))
            = some (.num 10485760) ∧
          ((jsField p "policy").bind (jsField · "maxBufferedBytes"))
            = some (.num 52428800) ∧
          ((jsField p "policy").bind (jsField · "tickIntervalMs"))
            = some (.num 30000)) :=
  ⟨rfl, connect_always_accepted moltbotConfig wsEnv0 "client-1"
    sampleConnectFrame rfl⟩

/-! ### C8: unknown methods rejected with `UNKNOWN_METHOD`, known
methods answered `ok:true` -/

theorem lookup_eq_none_of_not_mem_keys (l : List (String × Handler))
    (m : String) (h : m ∉ l.map (·.1)) : l.lookup m = none := by
  induction l with
  | nil => rfl
  | cons p t ih =>
    obtain ⟨k, v⟩ := p
    simp only [List.map_cons, List.mem_cons, not_or] at h
    have hne : (m == k) = false := beq_eq_false_iff_ne.2 h.1
    simp only [List.lookup, hne]
    exact ih h.2

/-- The method names of the dispatch table, as an explicit list. -/
theorem knownMethods_eq :
    knownMethods =
      ["connect", "health", "status", "models.list", "usage.status",
       "sessions.list", "sessions.preview", "sessions.delete",
       "sessions.reset", "sessions.compact", "agent", "agent.run",
       "agent.identity.get", "agent.wait", "agents.list", "send",
       "chat.send", "chat.history", "chat.abort", "config.get",
       "config.set", "config.schema", "config.patch", "node.list",
       "node.describe", "node.pair.request", "node.pair.list",
       "node.pair.approve"] := rfl

/-- C8 — total method dispatch: a well-formed request whose method is not
in the dispatch table (absent, non-string, or an unknown name) is
answered by one `res` frame echoing the request id with `ok:false`, no
payload, and error code `UNKNOWN_METHOD`; every recognized method is
answered by one `res` frame with `ok:true`, a payload, and no error. -/
theorem unknown_method_rejected_known_accepted (cfg : Config) (env : WsEnv)
    (cid : String) (msg : Js) :
    ((∀ m : String, jsField msg "method" = some (.str m) → m ∉ knownMethods) →
      ∃ err : Js,
        handleRequest cfg env cid msg =
          mkOut { id := jsField msg "id", ok := false, payload := none
                  error := some err } ∧
        jsField err "code" = some (.str "UNKNOWN_METHOD")) ∧
    (∀ m : String, jsField msg "method" = some (.str m) → m ∈ knownMethods →
      ∃ r : WsRes, (handleRequest cfg env cid msg).responses = [r] ∧
        r.id = jsField msg "id" ∧ r.ok = true ∧ r.payload.isSome = true ∧
        r.error = none) := by
  constructor
  · intro hunk
    cases h : jsField msg "method" with
    | none =>
      refine ⟨unknownMethodError none, ?_, rfl⟩
      rw [handleRequest_eq, h]
      rfl
    | some v =>
      cases v with
      | str m =>
        have hl : dispatchTable.lookup m = none :=
          lookup_eq_none_of_not_mem_keys _ _ (hunk m h)
        refine ⟨unknownMethodError (some (.str m)), ?_, rfl⟩
        rw [handleRequest_eq, h]
        simp only [dispatch, hl]
        rfl
      | num n =>
        refine ⟨unknownMethodError (some (.num n)), ?_, rfl⟩
        rw [handleRequest_eq, h]
        rfl
      | bool b =>
        refine ⟨unknownMethodError (some (.bool b)), ?_, rfl⟩
        rw [handleRequest_eq, h]
        rfl
      | null =>
        refine ⟨unknownMethodError (some .null), ?_, rfl⟩
        rw [handleRequest_eq, h]
        rfl
      | arr l =>
        refine ⟨unknownMethodError (some (.arr l)), ?_, rfl⟩
        rw [handleRequest_eq, h]
        rfl
      | obj fs =>
        refine ⟨unknownMethodError (some (.obj fs)), ?_, rfl⟩
        rw [handleRequest_eq, h]
        rfl
  · intro m hm hmem
    rw [knownMethods_eq] at hmem
    fin_cases hmem <;>
      · rw [handleRequest_eq, hm]
        exact ⟨_, rfl, rfl, rfl, rfl, rfl⟩

/-- Request frame with an unknown method, as in the spec's E2E scenario. -/
def sampleUnknownFrame : Js :=
  .obj [("type", .str "req"), ("id", .num 2), ("method", .str "totally.unknown")]

/-- Request frame with the recognized `health` method. -/
def sampleHealthFrame : Js :=
  .obj [("type", .str "req"), ("id", .num 3), ("method", .str "health")]

/-- Witness for C8 at concrete unknown and known frames. -/
theorem unknown_method_rejected_known_accepted_witness :
    (∃ err : Js,
      handleRequest moltbotConfig wsEnv0 "client-1" sampleUnknownFrame =
        mkOut { id := jsField sampleUnknownFrame "id", ok := false
                payload := none, error := some err } ∧
      jsField err "code" = some (.str "UNKNOWN_METHOD")) ∧
    (∃ r : WsRes,
      (handleRequest moltbotConfig wsEnv0 "client-1" sampleHealthFrame).responses
          = [r] ∧
        r.id = jsField sampleHealthFrame "id" ∧ r.ok = true ∧
        r.payload.isSome = true ∧ r.error = none) := by
  constructor
  · exact (unknown_method_rejected_known_accepted moltbotConfig wsEnv0
      "client-1" sampleUnknownFrame).1
      (by intro m h; simp only [sampleUnknownFrame, jsField, List.lookup] at h;
          injection h with h1; injection h1 with h2; subst h2; decide)
  · exact (unknown_method_rejected_known_accepted moltbotConfig wsEnv0
      "client-1" sampleHealthFrame).2 "health" rfl (by decide)



/-! ### C9: reply header, question echo, unicast destination -/

theorem read16_eq_some {msg : List Nat} {off v : Nat}
    (h : read16 msg off = some v) :
    off + 2 ≤ msg.length ∧ v = msg.getD off 0 * 256 + msg.getD (off + 1) 0 := by
  by_cases hle : off + 2 ≤ msg.length
  · simp only [read16, if_pos hle, Option.some_inj] at h
    exact ⟨hle, h.symm⟩
  · simp only [read16, if_neg hle] at h
    exact Option.noConfusion h

/-- What success of `parseQuery` pins down: the id is the big-endian
word at offset 0, and the echoed question bytes are an initial segment
of `msg.slice(12, ...)`. -/
theorem parseQuery_spec {msg : List Nat} {q : MdnsQuery}
    (h : parseQuery msg = some q) :
    2 ≤ msg.length ∧ q.id = msg.getD 0 0 * 256 + msg.getD 1 0 ∧
    ∃ k, q.questionData = (msg.drop 12).take k := by
  rw [parseQuery] at h
  split at h
  · rename_i idv flags qd h0 h2 h4
    split at h
    · cases h
    · split at h
      rename_i name off hp
      split at h
      · rename_i qt qc hq1 hq2
        rw [Option.some_inj] at h
        subst h
        obtain ⟨hlen, hid⟩ := read16_eq_some h0
        exact ⟨by omega, hid, ⟨_, rfl⟩⟩
      · cases h
  · cases h

/-- C9 — for every datagram `parseQuery` accepts, the handler sends
exactly one reply, unicast to the querying address and port; the reply
begins with a 12-byte header whose transaction id equals the query's id
(the first two datagram bytes) and whose flags word is `0x8400`, followed
by the original question-section bytes verbatim. -/
theorem mdns_reply_header_question_unicast (env : MdnsEnv) (s : AttackStore)
    (msg : List Nat) (r : Rinfo) (q : MdnsQuery)
    (hq : parseQuery msg = some q) (hb : ∀ b ∈ msg, b < 256) :
    mdnsOnMessage env s msg r =
      (s, [(buildResponse env q, r.port, r.address)]) ∧
    (buildResponse env q).take 2 = msg.take 2 ∧
    ((buildResponse env q).drop 2).take 2 = [0x84, 0x00] ∧
    ((buildResponse env q).drop 12).take q.questionData.length
      = q.questionData ∧
    ∃ k, q.questionData = (msg.drop 12).take k := by
  obtain ⟨hlen, hid, hques⟩ := parseQuery_spec hq
  obtain ⟨rest, hsplit⟩ : ∃ rest,
      buildResponse env q =
        dnsHeader q.id (4 + (if env.ipv6.isSome then 1 else 0) + 1)
          ++ (q.questionData ++ rest) := by
    simp only [buildResponse, List.append_assoc]
    exact ⟨_, rfl⟩
  have hcons : buildResponse env q =
      q.id / 256 % 256 :: q.id % 256 :: 0x84 :: 0x00 :: 0 :: 1 :: 0 :: 1
        :: 0 :: 0
        :: (4 + (if env.ipv6.isSome then 1 else 0) + 1) / 256 % 256
        :: (4 + (if env.ipv6.isSome then 1 else 0) + 1) % 256
        :: (q.questionData ++ rest) := by
    rw [hsplit]; rfl
  refine ⟨by simp [mdnsOnMessage, hq], ?_, ?_, ?_, hques⟩
  · rw [hcons]
    rcases msg with _ | ⟨b0, msg⟩
    · simp at hlen
    rcases msg with _ | ⟨b1, msg⟩
    · simp at hlen
    have hb0 : b0 < 256 := hb b0 (by simp)
    have hb1 : b1 < 256 := hb b1 (by simp)
    simp only [List.getD_cons_zero, List.getD_cons_succ] at hid
    rw [hid]
    have e0 : (b0 * 256 + b1) / 256 % 256 = b0 := by omega
    have e1 : (b0 * 256 + b1) % 256 = b1 := by omega
    rw [e0, e1]
    rfl
  · rw [hcons]
    rfl
  · rw [hcons]
    show (q.questionData ++ rest).take q.questionData.length = q.questionData
    exact List.take_left _ _

/-- Witness for C9 at the sample PTR datagram. -/
theorem mdns_reply_header_question_unicast_witness :
    parseQuery samplePtrQuery =
      some ⟨0x1234, [97], 12, 1, [1, 97, 0, 0, 12, 0, 1], 1⟩ ∧
    (∀ b ∈ samplePtrQuery, b < 256) ∧
    (mdnsOnMessage mdnsEnv0 (initStore 100) samplePtrQuery sampleRinfo =
        ((initStore 100),
          [(buildResponse mdnsEnv0 ⟨0x1234, [97], 12, 1, [1, 97, 0, 0, 12, 0, 1], 1⟩,
            sampleRinfo.port, sampleRinfo.address)]) ∧
      (buildResponse mdnsEnv0 ⟨0x1234, [97], 12, 1, [1, 97, 0, 0, 12, 0, 1], 1⟩).take 2
        = samplePtrQuery.take 2 ∧
      ((buildResponse mdnsEnv0 ⟨0x1234, [97], 12, 1, [1, 97, 0, 0, 12, 0, 1], 1⟩).drop 2).take 2
        = [0x84, 0x00] ∧
      ((buildResponse mdnsEnv0 ⟨0x1234, [97], 12, 1, [1, 97, 0, 0, 12, 0, 1], 1⟩).drop 12).take
          ([1, 97, 0, 0, 12, 0, 1] : List Nat).length
        = [1, 97, 0, 0, 12, 0, 1] ∧
      ∃ k, ([1, 97, 0, 0, 12, 0, 1] : List Nat)
        = (samplePtrQuery.drop 12).take k) := by
  refine ⟨rfl, by decide, ?_⟩
  exact mdns_reply_header_question_unicast mdnsEnv0 (initStore 100)
    samplePtrQuery sampleRinfo ⟨0x1234, [97], 12, 1, [1, 97, 0, 0, 12, 0, 1], 1⟩
    rfl (by decide)


end Honeypot
